import Mathlib

/-!
Verification development for the simamiakodi property-management backend.

The relevant controllers (`paymentPlanController.js`, `tenantController.js`,
`agentcommissionController.js`, the payments controller and the schema file)
are shallowly embedded below.  Conventions of the embedding:

* Monetary values (`DECIMAL(10,2)` columns, JavaScript numbers produced by
  `parseFloat`) are modelled as `Int`, counting the smallest currency unit
  (the store holds fixed-point decimals, not floats).  A request value that
  may be a non-numeric string (so that `parseFloat` yields `NaN`) is
  modelled by `JsNum`, with `JsNum.nan` standing for any truthy non-numeric
  input.
* Dates are modelled at day granularity in UTC (`SDate`), which matches the
  controllers: they parse `YYYY-MM-DD` strings, manipulate them with
  `Date.setDate`/`Date.setMonth` and serialise them back with
  `toISOString().split('T')[0]` on a server running in UTC.  JavaScript date
  normalisation (out-of-range day/month values roll over) is reproduced
  exactly by converting through a civil-day count.
* Absent JSON body fields are `Option.none`; JavaScript truthiness tests on
  body fields (`if (!x)`, `x || y`) are modelled by the `jsOr*`/`*Truthy`
  helpers (`""`, `0` and absent values are falsy).
* Each route handler is a pure function from the database state and the
  request to `Except ErrorResponse (List TraceStep × response)`.  The trace
  lists the SQL write statements the handler issues, in order, together with
  the `BEGIN`/`COMMIT` transaction markers it actually uses (a handler that
  never starts a transaction has a trace of bare writes).  `runTrace`
  executes a trace against a database with an optional injected failure
  point: statements inside an open transaction are buffered and take effect
  only at `COMMIT`, statements outside any transaction auto-commit
  immediately.  On the error paths the handlers perform no writes (all
  statements before each early return are `SELECT`s), which the embedding
  reflects by returning no trace.
* `updated_at` / `created_at` timestamp columns are not modelled.
-/

namespace SimamiaKodi

/-! ## Calendar arithmetic (model of JavaScript `Date` in UTC) -/

/-- A calendar date at day granularity.  In a normalised date `month` is in
`1..12` and `day` is in `1..31`, but the conversion functions accept
out-of-range components exactly as JavaScript `Date` does. -/
structure SDate where
  year  : Int
  month : Int
  day   : Int
deriving DecidableEq, Repr

/-- Days since 1970-01-01 of the civil date `(y, m, d)`.  The count is linear
in `d`, so an out-of-range day (e.g. February 31) denotes the corresponding
rolled-over day, exactly as the JavaScript `Date` timestamp does. -/
def daysFromCivil (y m d : Int) : Int :=
  let yAdj := y - (if m ≤ 2 then 1 else 0)
  let era := yAdj / 400
  let yoe := yAdj - era * 400
  let mp := (m + 9) % 12
  let doy := (153 * mp + 2) / 5 + d - 1
  let doe := yoe * 365 + yoe / 4 - yoe / 100 + doy
  era * 146097 + doe - 719468

/-- The normalised civil date of a count of days since 1970-01-01. -/
def civilFromDays (z0 : Int) : SDate :=
  let z := z0 + 719468
  let era := z / 146097
  let doe := z - era * 146097
  let yoe := (doe - doe / 1460 + doe / 36524 - doe / 146096) / 365
  let y := yoe + era * 400
  let doy := doe - (365 * yoe + yoe / 4 - yoe / 100)
  let mp := (5 * doy + 2) / 153
  let d := doy - (153 * mp + 2) / 5 + 1
  let m := mp + (if mp < 10 then 3 else -9)
  ⟨y + (if m ≤ 2 then 1 else 0), m, d⟩

def SDate.toDays (d : SDate) : Int := daysFromCivil d.year d.month d.day

/-- `date.setDate(date.getDate() + n)` followed by re-reading the date:
add `n` days with JavaScript normalisation. -/
def SDate.addDays (d : SDate) (n : Int) : SDate := civilFromDays (d.toDays + n)

/-- `date.setMonth(date.getMonth() + k)` followed by re-reading the date:
the month index is shifted by `k` (with year carry) and the day-of-month is
kept, letting JavaScript normalisation roll an out-of-range day over into
the following month (January 31 plus one month is March 3). -/
def SDate.jsAddMonths (d : SDate) (k : Int) : SDate :=
  let t := d.month - 1 + k
  civilFromDays (daysFromCivil (d.year + t / 12) (t % 12 + 1) d.day)

/-- `calculateNextDueDate` from `paymentPlanController.js`: a `switch` on the
frequency string, `setDate(+7)` for weekly, `setDate(+14)` for biweekly,
`setMonth(+1)` for monthly, `setMonth(+3)` for quarterly, and the `default`
case also `setMonth(+1)`. -/
def calculateNextDueDate (currentDate : SDate) (frequency : String) : SDate :=
  if frequency = "weekly" then currentDate.addDays 7
  else if frequency = "biweekly" then currentDate.addDays 14
  else if frequency = "monthly" then currentDate.jsAddMonths 1
  else if frequency = "quarterly" then currentDate.jsAddMonths 3
  else currentDate.jsAddMonths 1

/-- Whether `y` is a leap year (Gregorian calendar). -/
def isLeapYear (y : Int) : Bool :=
  y % 4 == 0 && (y % 400 == 0 || !(y % 100 == 0))

/-- Number of days in month `m` of year `y` (for `m` in `1..12`). -/
def daysInMonth (y m : Int) : Int :=
  if m == 2 then (if isLeapYear y then 29 else 28)
  else if m == 4 || m == 6 || m == 9 || m == 11 then 30
  else 31

/-- Modelled from the spec: `advance(date, frequency)` as the specification
describes it — weekly adds 7 days, biweekly 14 days, monthly one calendar
month and quarterly three calendar months with the day-of-month preserved
and *clamped to shorter months*.  This is the spec-side definition used to
compare against the source's `calculateNextDueDate`. -/
def specAdvance (d : SDate) (frequency : String) : SDate :=
  let clampedAddMonths : SDate → Int → SDate := fun d k =>
    let t := d.month - 1 + k
    let y := d.year + t / 12
    let m := t % 12 + 1
    ⟨y, m, min d.day (daysInMonth y m)⟩
  if frequency = "weekly" then d.addDays 7
  else if frequency = "biweekly" then d.addDays 14
  else if frequency = "monthly" then clampedAddMonths d 1
  else if frequency = "quarterly" then clampedAddMonths d 3
  else clampedAddMonths d 1

/-! ## JavaScript value helpers -/

/-- Result of `parseFloat` on a request body value: a number (fixed-point,
counted in the smallest currency unit), or `nan` for a truthy non-numeric
value. -/
inductive JsNum where
  | num (q : Int)
  | nan
deriving DecidableEq, Repr

/-- Truthiness of an optional numeric body field (absent and `0` are falsy;
a non-numeric string such as `"abc"` is truthy even though it parses to
`NaN`). -/
def jsAmtTruthy : Option JsNum → Bool
  | some (.num q) => !(q == 0)
  | some .nan => true
  | none => false

/-- Truthiness of an optional string body field (absent and `""` are falsy). -/
def optStrTruthy : Option String → Bool
  | some s => !(s == "")
  | none => false

/-- Truthiness of an optional id field (absent and `0` are falsy). -/
def optNatTruthy : Option Nat → Bool
  | some n => !(n == 0)
  | none => false

/-- `x || d` for a string field. -/
def jsOrStr (o : Option String) (d : String) : String :=
  match o with
  | some s => if s == "" then d else s
  | none => d

/-- `x || null` for a string field. -/
def jsOrNullStr : Option String → Option String
  | some s => if s == "" then none else some s
  | none => none

/-- `x || null` for an id field. -/
def jsOrNullNat : Option Nat → Option Nat
  | some n => if n == 0 then none else some n
  | none => none

/-! ## Table rows and the database state -/

/-- A row of the `units` table (the columns the modelled handlers touch). -/
structure UnitRow where
  unit_id : Nat
  property_id : Nat
  is_occupied : Bool
deriving DecidableEq, Repr

/-- A row of the `tenants` table. -/
structure TenantRow where
  tenant_id : Nat
  full_name : String
  phone : String
  email : Option String
  id_number : String
  unit_id : Option Nat
  emergency_contact_name : Option String
  emergency_contact_phone : Option String
  move_in_date : Option SDate
  deposit_paid : Int
  rent_balance : Int
  is_active : Bool
deriving DecidableEq, Repr

/-- A row of the `payment_plans` table. -/
structure PlanRow where
  plan_id : Nat
  tenant_id : Nat
  property_id : Option Nat
  unit_id : Option Nat
  total_amount : Int
  amount_paid : Int
  balance : Int
  installment_amount : Int
  installment_frequency : String
  start_date : SDate
  end_date : Option SDate
  next_due_date : Option SDate
  status : String
  description : Option String
deriving DecidableEq, Repr

/-- A row of the `payments` table (`payment_status` defaults to
`'completed'` in the schema). -/
structure PaymentRow where
  payment_id : Nat
  tenant_id : Nat
  property_id : Option Nat
  unit_id : Option Nat
  amount : Int
  payment_date : SDate
  payment_month : Option String
  payment_method : Option String
  payment_status : String
  reference_number : Option String
  mpesa_code : Option String
  notes : Option String
deriving DecidableEq, Repr

/-- A row of the `agent_commissions` table. -/
structure CommissionRow where
  commission_id : Nat
  tenant_id : Option Nat
  property_id : Nat
  agent_name : String
  agent_phone : Option String
  commission_amount : Int
  commission_percentage : Option Int
  status : String
  notes : Option String
  paid_date : Option SDate
  payment_reference : Option String
deriving DecidableEq, Repr

/-- The relational store.  The `next*Id` counters model the `SERIAL`
primary-key sequences. -/
structure DB where
  units : List UnitRow
  tenants : List TenantRow
  plans : List PlanRow
  payments : List PaymentRow
  commissions : List CommissionRow
  nextTenantId : Nat
  nextPlanId : Nat
  nextPaymentId : Nat
deriving DecidableEq, Repr

def DB.findUnit (db : DB) (id : Nat) : Option UnitRow :=
  db.units.find? (fun u => u.unit_id == id)

def DB.findTenant (db : DB) (id : Nat) : Option TenantRow :=
  db.tenants.find? (fun t => t.tenant_id == id)

def DB.findPlan (db : DB) (id : Nat) : Option PlanRow :=
  db.plans.find? (fun p => p.plan_id == id)

def DB.findPayment (db : DB) (id : Nat) : Option PaymentRow :=
  db.payments.find? (fun p => p.payment_id == id)

def DB.findCommission (db : DB) (id : Nat) : Option CommissionRow :=
  db.commissions.find? (fun c => c.commission_id == id)

/-! ## Request bodies -/

/-- Body of `POST /api/tenants` (`createTenant`).  Required string fields
that may be absent are modelled as `""` (equally falsy in JavaScript). -/
structure CreateTenantReq where
  full_name : String
  phone : String
  email : Option String := none
  id_number : String
  unit_id : Option Nat := none
  emergency_contact_name : Option String := none
  emergency_contact_phone : Option String := none
  move_in_date : Option SDate := none
  deposit_paid : Option Int := none
  rent_balance : Option Int := none
deriving DecidableEq, Repr

/-- Body of `PUT /api/tenants/:id` (`updateTenant`), restricted to the
tenant columns the modelled claims concern.  A `some` field is a key
present in the request body. -/
structure UpdateTenantReq where
  full_name : Option String := none
  phone : Option String := none
  email : Option String := none
  id_number : Option String := none
  unit_id : Option Nat := none
  move_in_date : Option SDate := none
  deposit_paid : Option Int := none
  rent_balance : Option Int := none
deriving DecidableEq, Repr

/-- Body of `POST /payment-plans` (`createPaymentPlan`). -/
structure CreatePlanReq where
  tenant_id : Option Nat
  property_id : Option Nat := none
  unit_id : Option Nat := none
  total_amount : Option JsNum
  installment_amount : Option JsNum
  installment_frequency : Option String := none
  start_date : Option SDate
  end_date : Option SDate := none
  description : Option String := none
deriving DecidableEq, Repr

/-- Body of the installment route (`recordInstallmentPayment`). -/
structure InstallReq where
  amount : Option Int
  payment_date : Option SDate := none
  payment_method : Option String := none
  reference_number : Option String := none
  notes : Option String := none
deriving DecidableEq, Repr

/-- Body of `PUT /commissions/:id` (`updateCommission`), already filtered to
the `UPDATEABLE_FIELDS` whitelist (keys outside the whitelist are dropped by
the handler before any further processing). -/
structure CommissionUpdateReq where
  tenant_id : Option Nat := none
  property_id : Option Nat := none
  agent_name : Option String := none
  agent_phone : Option String := none
  commission_amount : Option Int := none
  commission_percentage : Option Int := none
  status : Option String := none
  notes : Option String := none
deriving DecidableEq, Repr

/-- Body of `PUT /commissions/:id/pay` (`markAsPaid`). -/
structure MarkPaidReq where
  paid_date : Option SDate := none
  payment_reference : Option String := none
deriving DecidableEq, Repr

/-! ## Write statements and transactional trace execution -/

/-- A parameterised SQL write statement issued by one of the modelled
handlers. -/
inductive WriteOp where
  | setUnitOccupied (unitId : Nat) (v : Bool)
  | insertTenant (row : TenantRow)
  | setTenantInactive (tenantId : Nat)
  | updateTenantFields (tenantId : Nat) (upd : UpdateTenantReq)
  | insertPlan (row : PlanRow)
  | updatePlanInstallment (planId : Nat) (paid bal : Int)
      (nextDue : Option SDate) (st : String)
  | insertPayment (row : PaymentRow)
  | setPaymentCancelled (paymentId : Nat)
  | setCommissionFields (commissionId : Nat) (upd : CommissionUpdateReq)
  | markCommissionPaid (commissionId : Nat) (paidDate : SDate)
      (ref : Option String)
deriving DecidableEq, Repr

/-- `UPDATE tenants SET <present fields> WHERE tenant_id = $n` applied to one
row (the dynamic `SET` clause built from the present request keys). -/
def applyTenantUpdate (t : TenantRow) (upd : UpdateTenantReq) : TenantRow :=
  { t with
    full_name := upd.full_name.getD t.full_name
    phone := upd.phone.getD t.phone
    email := match upd.email with | some v => some v | none => t.email
    id_number := upd.id_number.getD t.id_number
    unit_id := match upd.unit_id with | some v => some v | none => t.unit_id
    move_in_date :=
      match upd.move_in_date with | some v => some v | none => t.move_in_date
    deposit_paid := upd.deposit_paid.getD t.deposit_paid
    rent_balance := upd.rent_balance.getD t.rent_balance }

/-- `UPDATE agent_commissions SET <present whitelisted fields> WHERE
commission_id = $n` applied to one row. -/
def applyCommissionUpdate (c : CommissionRow) (upd : CommissionUpdateReq) :
    CommissionRow :=
  { c with
    tenant_id := match upd.tenant_id with | some v => some v | none => c.tenant_id
    property_id := upd.property_id.getD c.property_id
    agent_name := upd.agent_name.getD c.agent_name
    agent_phone :=
      match upd.agent_phone with | some v => some v | none => c.agent_phone
    commission_amount := upd.commission_amount.getD c.commission_amount
    commission_percentage :=
      match upd.commission_percentage with
      | some v => some v | none => c.commission_percentage
    status := upd.status.getD c.status
    notes := match upd.notes with | some v => some v | none => c.notes }

/-- Effect of one write statement on the store.  `UPDATE ... WHERE id = $1`
touches every row matching the key; `INSERT` appends and advances the
corresponding serial sequence. -/
def applyWrite (db : DB) : WriteOp → DB
  | .setUnitOccupied uid v =>
    { db with units := db.units.map fun u =>
        if u.unit_id == uid then { u with is_occupied := v } else u }
  | .insertTenant row =>
    { db with tenants := db.tenants ++ [row],
              nextTenantId := db.nextTenantId + 1 }
  | .setTenantInactive tid =>
    { db with tenants := db.tenants.map fun t =>
        if t.tenant_id == tid then { t with is_active := false } else t }
  | .updateTenantFields tid upd =>
    { db with tenants := db.tenants.map fun t =>
        if t.tenant_id == tid then applyTenantUpdate t upd else t }
  | .insertPlan row =>
    { db with plans := db.plans ++ [row], nextPlanId := db.nextPlanId + 1 }
  | .updatePlanInstallment pid paid bal nextDue st =>
    { db with plans := db.plans.map fun p =>
        if p.plan_id == pid then
          { p with amount_paid := paid, balance := bal,
                   next_due_date := nextDue, status := st }
        else p }
  | .insertPayment row =>
    { db with payments := db.payments ++ [row],
              nextPaymentId := db.nextPaymentId + 1 }
  | .setPaymentCancelled pid =>
    { db with payments := db.payments.map fun p =>
        if p.payment_id == pid then { p with payment_status := "cancelled" }
        else p }
  | .setCommissionFields cid upd =>
    { db with commissions := db.commissions.map fun c =>
        if c.commission_id == cid then applyCommissionUpdate c upd else c }
  | .markCommissionPaid cid paidDate ref =>
    { db with commissions := db.commissions.map fun c =>
        if c.commission_id == cid then
          { c with status := "paid", paid_date := some paidDate,
                   payment_reference := ref }
        else c }

/-- One step of a handler's interaction with the store: a transaction
marker or a write statement. -/
inductive TraceStep where
  | tbegin
  | tcommit
  | trollback
  | write (op : WriteOp)
deriving DecidableEq, Repr

/-- Execute a trace against committed state `committed` with transaction
workspace `txn` (`some w` while a transaction is open).  `failAt = some k`
injects a connection failure immediately before step `k`: execution stops,
an open transaction is rolled back, and the committed state so far is the
observable result.  Writes outside a transaction auto-commit one by one. -/
def runTrace : DB → Option DB → List TraceStep → Option Nat → DB
  | committed, _, [], _ => committed
  | committed, txn, s :: rest, failAt =>
    if failAt = some 0 then committed
    else
      let failAt' := failAt.map (· - 1)
      match s, txn with
      | .tbegin, _ => runTrace committed (some committed) rest failAt'
      | .tcommit, some w => runTrace w none rest failAt'
      | .tcommit, none => runTrace committed none rest failAt'
      | .trollback, _ => runTrace committed none rest failAt'
      | .write op, some w => runTrace committed (some (applyWrite w op)) rest failAt'
      | .write op, none => runTrace (applyWrite committed op) none rest failAt'

/-- The state after a trace completes without failure. -/
def runOk (db : DB) (tr : List TraceStep) : DB := runTrace db none tr none

/-! ## Error responses -/

/-- Error responses of the modelled handlers: HTTP 400 with a message, HTTP
400 with a list of validation messages, or HTTP 404. -/
inductive ErrorResponse where
  | badRequest (msg : String)
  | validationErrors (errs : List String)
  | notFound (msg : String)
deriving DecidableEq, Repr

instance instDecEqExcept {ε α : Type} [DecidableEq ε] [DecidableEq α] :
    DecidableEq (Except ε α)
  | .error e, .error f =>
    match decEq e f with
    | isTrue h => isTrue (by rw [h])
    | isFalse h => isFalse (fun hh => h (by injection hh))
  | .error _, .ok _ => isFalse (fun hh => Except.noConfusion hh)
  | .ok _, .error _ => isFalse (fun hh => Except.noConfusion hh)
  | .ok a, .ok b =>
    match decEq a b with
    | isTrue h => isTrue (by rw [h])
    | isFalse h => isFalse (fun hh => h (by injection hh))

/-! ## Tenant controller (`tenantController.js`) -/

/-- `normalizePhone`: converts a leading `07` to `+254` followed by the rest
of the number (`phone.startsWith('07')` — modelled as a pattern match on
the characters — then `'+254' + phone.slice(1)`). -/
def normalizePhone (phone : String) : String :=
  match phone.toList with
  | '0' :: '7' :: _ => "+254" ++ phone.drop 1
  | _ => phone

/-- The test of the regular expression `/^\+254[17]\d{8}$/` used to validate
tenant phone numbers. -/
def phoneRegexTest (s : String) : Bool :=
  match s.toList with
  | '+' :: '2' :: '5' :: '4' :: c :: rest =>
    (c == '1' || c == '7') && rest.length == 8 && rest.all (·.isDigit)
  | _ => false

/-- The row `createTenant` inserts once validation has passed: the
normalised phone, `is_active = TRUE`, `|| null` defaults for optional
fields and `|| 0` defaults for the money figures. -/
def createTenantRow (db : DB) (req : CreateTenantReq) : TenantRow :=
  { tenant_id := db.nextTenantId
    full_name := req.full_name
    phone := normalizePhone req.phone
    email := jsOrNullStr req.email
    id_number := req.id_number
    unit_id := jsOrNullNat req.unit_id
    emergency_contact_name := jsOrNullStr req.emergency_contact_name
    emergency_contact_phone := jsOrNullStr req.emergency_contact_phone
    move_in_date := req.move_in_date
    deposit_paid := req.deposit_paid.getD 0
    rent_balance := req.rent_balance.getD 0
    is_active := true }

/-- `createTenant`: required-field and phone/id validation, duplicate
id-number check, optional unit existence/occupancy check with an
`UPDATE units SET is_occupied = TRUE` statement, then the tenant `INSERT`.
The two write statements are issued through plain `db.query` calls with no
`BEGIN`/`COMMIT`, so the trace carries bare auto-committed writes. -/
def createTenant (db : DB) (req : CreateTenantReq) :
    Except ErrorResponse (List TraceStep × TenantRow) :=
  if req.full_name == "" || req.phone == "" || req.id_number == "" then
    .error (.badRequest "Missing required fields: full_name, phone, id_number")
  else if !phoneRegexTest (normalizePhone req.phone) then
    .error (.badRequest
      "Invalid phone number format. Must be +2547XXXXXXXX or 07XXXXXXXX")
  else if req.id_number.length < 8 then
    .error (.badRequest "ID number must be at least 8 characters")
  else if (db.tenants.find? (fun t => t.id_number == req.id_number)).isSome then
    .error (.badRequest "A tenant with this ID number already exists")
  else if optNatTruthy req.unit_id then
    match req.unit_id with
    | some uid =>
      match db.findUnit uid with
      | none => .error (.badRequest "Invalid unit_id - unit does not exist")
      | some u =>
        if u.is_occupied then
          .error (.badRequest "Unit is already occupied")
        else
          .ok ([.write (.setUnitOccupied uid true),
                .write (.insertTenant (createTenantRow db req))],
               createTenantRow db req)
    | none => .ok ([.write (.insertTenant (createTenantRow db req))],
                   createTenantRow db req)
  else
    .ok ([.write (.insertTenant (createTenantRow db req))],
         createTenantRow db req)

/-- The `updates` object after the `if (updates.phone) updates.phone =
normalizePhone(updates.phone)` step: a truthy phone is normalised, a falsy
one (absent or empty string) is left as-is. -/
def normalizeUpdateReq (req : UpdateTenantReq) : UpdateTenantReq :=
  if optStrTruthy req.phone then
    { req with phone := req.phone.map normalizePhone }
  else req

/-- `updateTenant`: normalizes a truthy phone, checks the tenant exists,
validates a truthy phone against the regex, and applies the dynamically
built `UPDATE` over the present body keys.  A present but empty-string
phone is falsy in JavaScript, so it skips both the normalisation and the
validation yet still reaches the `SET` clause. -/
def updateTenant (db : DB) (id : Nat) (req : UpdateTenantReq) :
    Except ErrorResponse (List TraceStep × TenantRow) :=
  match db.findTenant id with
  | none => .error (.notFound "Tenant not found")
  | some t =>
    if optStrTruthy (normalizeUpdateReq req).phone &&
        !phoneRegexTest ((normalizeUpdateReq req).phone.getD "") then
      .error (.badRequest "Invalid phone number format")
    else if (normalizeUpdateReq req).full_name.isNone &&
        (normalizeUpdateReq req).phone.isNone &&
        (normalizeUpdateReq req).email.isNone &&
        (normalizeUpdateReq req).id_number.isNone &&
        (normalizeUpdateReq req).unit_id.isNone &&
        (normalizeUpdateReq req).move_in_date.isNone &&
        (normalizeUpdateReq req).deposit_paid.isNone &&
        (normalizeUpdateReq req).rent_balance.isNone then
      .error (.badRequest "No fields to update")
    else
      .ok ([.write (.updateTenantFields id (normalizeUpdateReq req))],
           applyTenantUpdate t (normalizeUpdateReq req))

/-- `deleteTenant` (soft delete): `UPDATE tenants SET is_active = FALSE`,
then — if the returned row has a truthy `unit_id` — a separate
`UPDATE units SET is_occupied = FALSE`.  Again two auto-committed
statements with no transaction. -/
def deleteTenant (db : DB) (id : Nat) :
    Except ErrorResponse (List TraceStep × TenantRow) :=
  match db.findTenant id with
  | none => .error (.notFound "Tenant not found")
  | some t =>
    let t' := { t with is_active := false }
    if optNatTruthy t'.unit_id then
      match t'.unit_id with
      | some uid =>
        .ok ([.write (.setTenantInactive id),
              .write (.setUnitOccupied uid false)], t')
      | none => .ok ([.write (.setTenantInactive id)], t')
    else
      .ok ([.write (.setTenantInactive id)], t')

/-! ## Payment-plan controller (`paymentPlanController.js`) -/

/-- The `validFrequencies` list. -/
def validFrequencies : List String := ["weekly", "biweekly", "monthly", "quarterly"]

/-- The row `createPaymentPlan` inserts once validation has passed:
`amount_paid = 0`, `balance = totalAmt`, `status = 'active'`,
`next_due_date = calculateNextDueDate(start_date, frequency)` with the
frequency defaulting to `'monthly'`. -/
def createPlanRow (db : DB) (req : CreatePlanReq) (tid : Nat)
    (totalAmt installmentAmt : Int) (startDate : SDate) : PlanRow :=
  { plan_id := db.nextPlanId
    tenant_id := tid
    property_id := jsOrNullNat req.property_id
    unit_id := jsOrNullNat req.unit_id
    total_amount := totalAmt
    amount_paid := 0
    balance := totalAmt
    installment_amount := installmentAmt
    installment_frequency := jsOrStr req.installment_frequency "monthly"
    start_date := startDate
    end_date := req.end_date
    next_due_date := some (calculateNextDueDate startDate
      (jsOrStr req.installment_frequency "monthly"))
    status := "active"
    description := jsOrNullStr req.description }

/-- `createPaymentPlan`: required-field check (JavaScript truthiness),
numeric validation of the two amounts, installment-versus-total check,
frequency validation with `'monthly'` as the default, then a single
auto-committed `INSERT` of `createPlanRow`. -/
def createPaymentPlan (db : DB) (req : CreatePlanReq) :
    Except ErrorResponse (List TraceStep × PlanRow) :=
  if !(optNatTruthy req.tenant_id && jsAmtTruthy req.total_amount &&
       jsAmtTruthy req.installment_amount && req.start_date.isSome) then
    .error (.badRequest
      "Missing required fields: tenant_id, total_amount, installment_amount, start_date")
  else
    match req.tenant_id, req.total_amount, req.installment_amount, req.start_date with
    | some tid, some (.num totalAmt), some (.num installmentAmt), some startDate =>
      if totalAmt ≤ 0 ∨ installmentAmt ≤ 0 then
        .error (.badRequest
          "Total amount and installment amount must be positive numbers")
      else if installmentAmt > totalAmt then
        .error (.badRequest "Installment amount cannot be greater than total amount")
      else if !validFrequencies.contains (jsOrStr req.installment_frequency "monthly") then
        .error (.badRequest
          "Invalid installment frequency. Must be one of: weekly, biweekly, monthly, quarterly")
      else
        .ok ([.write (.insertPlan (createPlanRow db req tid totalAmt installmentAmt startDate))],
             createPlanRow db req tid totalAmt installmentAmt startDate)
    | _, _, _, _ =>
      -- a truthy non-numeric amount reaches the `isNaN` check
      .error (.badRequest
        "Total amount and installment amount must be positive numbers")

/-- The success payload of the installment route:
`{new_amount_paid, new_balance, status}`. -/
structure InstallResp where
  new_amount_paid : Int
  new_balance : Int
  status : String
deriving DecidableEq, Repr

/-- The `INSERT INTO payments ...` row issued by `recordInstallmentPayment`
for amount `a` against plan `plan`: the plan's tenant/property/unit, the
given amount and `payment_date || now`, `payment_method || 'M-Pesa'`, and
`notes` defaulting to a string naming the plan. -/
def installmentPaymentRow (db : DB) (now : SDate) (id : Nat)
    (req : InstallReq) (plan : PlanRow) (a : Int) : PaymentRow :=
  { payment_id := db.nextPaymentId
    tenant_id := plan.tenant_id
    property_id := plan.property_id
    unit_id := plan.unit_id
    amount := a
    payment_date := req.payment_date.getD now
    payment_month := none
    payment_method := some (jsOrStr req.payment_method "M-Pesa")
    payment_status := "completed"  -- schema default
    reference_number := req.reference_number
    mpesa_code := none
    notes := some (jsOrStr req.notes
      ("Installment payment for plan #" ++ toString id)) }

/-- `recordInstallmentPayment`: rejects a falsy amount, `BEGIN`s a
transaction, reads the plan row (404 when absent), computes
`newAmountPaid = amount_paid + amount` and
`newBalance = total_amount - newAmountPaid`, keeps the stored status unless
`newBalance ≤ 0` (which forces `'completed'`), nulls `next_due_date` when
the resulting status is `'completed'` and otherwise recomputes it from
`payment_date || now`, then issues the plan `UPDATE` and the payment
`INSERT` before `COMMIT`.  `now` is the server clock (`new Date()`). -/
def recordInstallmentPayment (db : DB) (now : SDate) (id : Nat)
    (req : InstallReq) : Except ErrorResponse (List TraceStep × InstallResp) :=
  match req.amount with
  | none => .error (.badRequest "Payment amount is required")
  | some a =>
    if a == 0 then .error (.badRequest "Payment amount is required")
    else
      match db.findPlan id with
      | none => .error (.notFound "Payment plan not found")
      | some plan =>
        let newAmountPaid := plan.amount_paid + a
        let newBalance := plan.total_amount - newAmountPaid
        let newStatus := if newBalance ≤ 0 then "completed" else plan.status
        let nextDueDate :=
          if newStatus = "completed" then none
          else some (calculateNextDueDate (req.payment_date.getD now)
                      plan.installment_frequency)
        .ok ([.tbegin,
              .write (.updatePlanInstallment id newAmountPaid newBalance
                        nextDueDate newStatus),
              .write (.insertPayment (installmentPaymentRow db now id req plan a)),
              .tcommit],
             ⟨newAmountPaid, newBalance, newStatus⟩)

/-! ## Payments controller (`deletePayment`) -/

/-- `deletePayment` (soft delete): inside a transaction, `UPDATE payments
SET payment_status = 'cancelled' WHERE payment_id = $1 RETURNING *`; a
missing row rolls back with 404, otherwise the update commits.  No check of
the prior status is made, and the row is never removed. -/
def deletePayment (db : DB) (id : Nat) :
    Except ErrorResponse (List TraceStep × PaymentRow) :=
  match db.findPayment id with
  | none => .error (.notFound "Payment not found")
  | some p =>
    .ok ([.tbegin, .write (.setPaymentCancelled id), .tcommit],
         { p with payment_status := "cancelled" })

/-! ## Agent-commission controller (`agentcommissionController.js`) -/

/-- `validators.isValidStatus`. -/
def isValidStatus (s : String) : Bool :=
  s == "pending" || s == "paid" || s == "cancelled"

/-- `validators.isValidPhone`: the test of `/^[\d\s\-+()]{10,20}$/`
(whitespace modelled as the space character). -/
def loosePhoneTest (s : String) : Bool :=
  decide (10 ≤ s.length) && decide (s.length ≤ 20) &&
  s.toList.all (fun c =>
    c.isDigit || c == ' ' || c == '-' || c == '+' || c == '(' || c == ')')

/-- Truthiness of an optional rational body field. -/
def optNumTruthy : Option Int → Bool
  | some q => !(q == 0)
  | none => false

/-- `validateCommissionInput(data, isUpdate)`: the ordered list of
validation error messages. -/
def validateCommissionInput (data : CommissionUpdateReq) (isUpdate : Bool) :
    List String :=
  (if !isUpdate && !optNatTruthy data.property_id then
    ["property_id is required"] else []) ++
  (if !isUpdate && !optStrTruthy data.agent_name then
    ["agent_name is required"] else []) ++
  (if !isUpdate && !optNumTruthy data.commission_amount then
    ["commission_amount is required"] else []) ++
  (if optNumTruthy data.commission_amount &&
      !(match data.commission_amount with
        | some q => decide (0 < q) | none => false) then
    ["commission_amount must be a positive number"] else []) ++
  (if data.commission_percentage.isSome &&
      !(match data.commission_percentage with
        | some q => decide (0 ≤ q) && decide (q ≤ 100) | none => false) then
    ["commission_percentage must be between 0 and 100"] else []) ++
  (if optStrTruthy data.agent_phone &&
      !loosePhoneTest (data.agent_phone.getD "") then
    ["agent_phone format is invalid"] else []) ++
  (if optStrTruthy data.status && !isValidStatus (data.status.getD "") then
    ["status must be one of: pending, paid, cancelled"] else []) ++
  (if optStrTruthy data.agent_name &&
      !(decide (2 ≤ (data.agent_name.getD "").length) &&
        decide ((data.agent_name.getD "").length ≤ 100)) then
    ["agent_name must be between 2 and 100 characters"] else [])

/-- Whether the whitelisted update request carries at least one field
(`fields.length === 0` check). -/
def CommissionUpdateReq.hasAnyField (r : CommissionUpdateReq) : Bool :=
  r.tenant_id.isSome || r.property_id.isSome || r.agent_name.isSome ||
  r.agent_phone.isSome || r.commission_amount.isSome ||
  r.commission_percentage.isSome || r.status.isSome || r.notes.isSome

/-- `updateCommission`: whitelists the body keys, rejects an empty update,
validates the fields, `BEGIN`s, 404s when the row is missing, rejects a
paid commission **only when the body has no truthy `notes` value**, then
applies the whole whitelisted `SET` clause and commits. -/
def updateCommission (db : DB) (id : Nat) (req : CommissionUpdateReq) :
    Except ErrorResponse (List TraceStep × CommissionRow) :=
  if !req.hasAnyField then
    .error (.badRequest "No valid fields to update")
  else if validateCommissionInput req true ≠ [] then
    .error (.validationErrors (validateCommissionInput req true))
  else
    match db.findCommission id with
    | none => .error (.notFound "Commission record not found")
    | some c =>
      if c.status == "paid" && !optStrTruthy req.notes then
        .error (.badRequest
          "Cannot modify paid commissions. Only notes can be updated.")
      else
        .ok ([.tbegin, .write (.setCommissionFields id req), .tcommit],
             applyCommissionUpdate c req)

/-- `markAsPaid`: `BEGIN`, read the current status (404 when missing),
reject when already `'paid'`, otherwise set `status = 'paid'`,
`paid_date = paid_date || now` and the payment reference, and commit. -/
def markAsPaid (db : DB) (now : SDate) (id : Nat) (req : MarkPaidReq) :
    Except ErrorResponse (List TraceStep × CommissionRow) :=
  match db.findCommission id with
  | none => .error (.notFound "Commission record not found")
  | some c =>
    if c.status == "paid" then
      .error (.badRequest "Commission is already marked as paid")
    else
      let pd := req.paid_date.getD now
      .ok ([.tbegin,
            .write (.markCommissionPaid id pd req.payment_reference),
            .tcommit],
           { c with status := "paid", paid_date := some pd,
                    payment_reference := req.payment_reference })

/-! ## Example stores, requests and derived definitions used by the
theorems below -/

def planW9 : PlanRow :=
  { plan_id := 1, tenant_id := 1, property_id := none, unit_id := none,
    total_amount := 100, amount_paid := 100, balance := 0,
    installment_amount := 10, installment_frequency := "monthly",
    start_date := ⟨2025, 1, 1⟩, end_date := none, next_due_date := none,
    status := "completed", description := none }

def dbW9 : DB := ⟨[], [], [planW9], [], [], 1, 2, 1⟩

def reqW9 : InstallReq := { amount := some 5 }

/-- `balance == total_amount - amount_paid` for every stored plan row. -/
def balanceInvariant (db : DB) : Prop :=
  ∀ p ∈ db.plans, p.balance = p.total_amount - p.amount_paid

def dbW2 : DB := ⟨[], [], [], [], [], 1, 1, 1⟩

def reqW2 : CreatePlanReq :=
  { tenant_id := some 1, total_amount := some (.num 30000),
    installment_amount := some (.num 5000),
    installment_frequency := some "monthly", start_date := some ⟨2025, 1, 1⟩ }

def rowW2 : PlanRow :=
  { plan_id := 1, tenant_id := 1, property_id := none, unit_id := none,
    total_amount := 30000, amount_paid := 0, balance := 30000,
    installment_amount := 5000, installment_frequency := "monthly",
    start_date := ⟨2025, 1, 1⟩, end_date := none,
    next_due_date := some ⟨2025, 2, 1⟩, status := "active",
    description := none }

def planC1x : PlanRow :=
  { plan_id := 1, tenant_id := 1, property_id := none, unit_id := none,
    total_amount := 100, amount_paid := 0, balance := 100,
    installment_amount := 10, installment_frequency := "monthly",
    start_date := ⟨2025, 1, 1⟩, end_date := none,
    next_due_date := some ⟨2025, 2, 1⟩, status := "completed",
    description := none }

def dbC1x : DB := ⟨[], [], [planC1x], [], [], 1, 2, 1⟩

def reqC1x : InstallReq :=
  { amount := some 10, payment_date := some ⟨2025, 3, 1⟩ }

def planW1 : PlanRow :=
  { plan_id := 1, tenant_id := 1, property_id := none, unit_id := none,
    total_amount := 30000, amount_paid := 0, balance := 30000,
    installment_amount := 5000, installment_frequency := "monthly",
    start_date := ⟨2025, 1, 1⟩, end_date := none,
    next_due_date := some ⟨2025, 2, 1⟩, status := "active",
    description := none }

def dbW1 : DB := ⟨[], [], [planW1], [], [], 1, 2, 1⟩

def reqW1 : InstallReq :=
  { amount := some 5000, payment_date := some ⟨2025, 2, 1⟩ }

def dbC3 : DB := ⟨[⟨5, 1, false⟩], [], [], [], [], 1, 1, 1⟩

def reqC3 : CreateTenantReq :=
  { full_name := "John Doe", phone := "0712345678", id_number := "12345678",
    unit_id := some 5 }

def rowC3 : TenantRow :=
  { tenant_id := 1, full_name := "John Doe", phone := "+254712345678",
    email := none, id_number := "12345678", unit_id := some 5,
    emergency_contact_name := none, emergency_contact_phone := none,
    move_in_date := none, deposit_paid := 0, rent_balance := 0,
    is_active := true }

def trC3 : List TraceStep :=
  [.write (.setUnitOccupied 5 true), .write (.insertTenant rowC3)]

def tenC3d : TenantRow :=
  { tenant_id := 2, full_name := "Jane Roe", phone := "+254712345679",
    email := none, id_number := "87654321", unit_id := some 5,
    emergency_contact_name := none, emergency_contact_phone := none,
    move_in_date := none, deposit_paid := 0, rent_balance := 0,
    is_active := true }

def dbC3d : DB := ⟨[⟨5, 1, true⟩], [tenC3d], [], [], [], 3, 1, 1⟩

def trC3d : List TraceStep :=
  [.write (.setTenantInactive 2), .write (.setUnitOccupied 5 false)]

def dbW5 : DB := ⟨[], [], [], [], [], 1, 4, 1⟩

def reqW5 : CreatePlanReq :=
  { tenant_id := some 9, total_amount := some (.num 12000),
    installment_amount := some (.num 4000),
    installment_frequency := none, start_date := some ⟨2025, 6, 15⟩ }

def comC6 : CommissionRow :=
  { commission_id := 7, tenant_id := none, property_id := 1,
    agent_name := "Agent A", agent_phone := none, commission_amount := 1500,
    commission_percentage := none, status := "paid", notes := none,
    paid_date := some ⟨2025, 1, 1⟩, payment_reference := none }

def dbC6 : DB := ⟨[], [], [], [], [comC6], 1, 1, 1⟩

def reqC6 : CommissionUpdateReq :=
  { commission_amount := some 2000, notes := some "x" }

/-- The state after one call of the installment route: the committed trace
on success, the unchanged store on any error. -/
def stepInstallment (now : SDate) (id : Nat) (db : DB) (req : InstallReq) : DB :=
  match recordInstallmentPayment db now id req with
  | .ok pr => runOk db pr.1
  | .error _ => db

/-- The state after a sequence of installment calls against one plan. -/
def runInstallments (db : DB) (now : SDate) (id : Nat)
    (reqs : List InstallReq) : DB :=
  reqs.foldl (stepInstallment now id) db

def planC7 : PlanRow :=
  { plan_id := 1, tenant_id := 1, property_id := none, unit_id := none,
    total_amount := 100, amount_paid := 10, balance := 90,
    installment_amount := 10, installment_frequency := "monthly",
    start_date := ⟨2025, 1, 1⟩, end_date := none,
    next_due_date := some ⟨2025, 2, 1⟩, status := "active",
    description := none }

def dbC7 : DB := ⟨[], [], [planC7], [], [], 1, 2, 1⟩

def reqC7 : InstallReq := { amount := some (-5) }

def planW7 : PlanRow :=
  { plan_id := 1, tenant_id := 1, property_id := none, unit_id := none,
    total_amount := 100, amount_paid := 0, balance := 100,
    installment_amount := 10, installment_frequency := "monthly",
    start_date := ⟨2025, 1, 1⟩, end_date := none,
    next_due_date := some ⟨2025, 2, 1⟩, status := "active",
    description := none }

def dbW7 : DB := ⟨[], [], [planW7], [], [], 1, 2, 1⟩

def payC8 : PaymentRow :=
  { payment_id := 1, tenant_id := 1, property_id := none, unit_id := none,
    amount := 500, payment_date := ⟨2025, 1, 1⟩, payment_month := none,
    payment_method := some "Cash", payment_status := "cancelled",
    reference_number := none, mpesa_code := none, notes := none }

def dbC8 : DB := ⟨[], [], [], [payC8], [], 1, 1, 2⟩

def payW8 : PaymentRow :=
  { payment_id := 2, tenant_id := 1, property_id := none, unit_id := none,
    amount := 700, payment_date := ⟨2025, 1, 2⟩, payment_month := none,
    payment_method := some "Cash", payment_status := "completed",
    reference_number := none, mpesa_code := none, notes := none }

def dbW8 : DB := ⟨[], [], [], [payW8], [], 1, 1, 3⟩

def tenC10 : TenantRow :=
  { tenant_id := 1, full_name := "Jane Roe", phone := "+254712345678",
    email := none, id_number := "12345678", unit_id := none,
    emergency_contact_name := none, emergency_contact_phone := none,
    move_in_date := none, deposit_paid := 0, rent_balance := 0,
    is_active := true }

def dbC10 : DB := ⟨[], [tenC10], [], [], [], 2, 1, 1⟩

def reqW10 : CreateTenantReq :=
  { full_name := "Jane Roe", phone := "0712345678",
    id_number := "12345678" }

def dbW10 : DB := ⟨[], [], [], [], [], 1, 1, 1⟩

/-! ## Helper lemmas about trace execution and row lookup -/

theorem runOk_singleWrite (db : DB) (u : WriteOp) :
    runOk db [.write u] = applyWrite db u := rfl

theorem runOk_txn1 (db : DB) (u : WriteOp) :
    runOk db [.tbegin, .write u, .tcommit] = applyWrite db u := rfl

theorem runOk_txn2 (db : DB) (u v : WriteOp) :
    runOk db [.tbegin, .write u, .write v, .tcommit] =
      applyWrite (applyWrite db u) v := rfl

/-- A transaction of two writes that fails at any point before its `COMMIT`
leaves the committed state untouched. -/
theorem runTrace_txn2_fail (db : DB) (u v : WriteOp) (k : Nat) (hk : k < 4) :
    runTrace db none [.tbegin, .write u, .write v, .tcommit] (some k) = db := by
  interval_cases k <;> rfl

/-- `find?` over a per-row update that does not change the key equals the
update of the original `find?` result. -/
theorem find?_map_preserving {α : Type} (l : List α) (f : α → α)
    (key : α → Nat) (id : Nat) (hf : ∀ x, key (f x) = key x) :
    (l.map f).find? (fun x => key x == id) =
      (l.find? (fun x => key x == id)).map f := by
  rw [List.find?_map]
  have hcomp : ((fun x => key x == id) ∘ f) = (fun x => key x == id) := by
    funext x
    simp [Function.comp, hf]
  rw [hcomp]

/-- Characterisation of a successful installment recording: the exact trace
(one transaction around the plan `UPDATE` and the payment `INSERT`) and the
exact response. -/
theorem recordInstallment_eq (db : DB) (now : SDate) (id : Nat)
    (req : InstallReq) (a : Int) (plan : PlanRow)
    (ha : req.amount = some a) (ha0 : a ≠ 0)
    (hp : db.findPlan id = some plan) :
    recordInstallmentPayment db now id req = .ok
      ([.tbegin,
        .write (.updatePlanInstallment id (plan.amount_paid + a)
          (plan.total_amount - (plan.amount_paid + a))
          (if (if plan.total_amount - (plan.amount_paid + a) ≤ 0
                then "completed" else plan.status) = "completed"
            then none
            else some (calculateNextDueDate (req.payment_date.getD now)
                        plan.installment_frequency))
          (if plan.total_amount - (plan.amount_paid + a) ≤ 0
            then "completed" else plan.status)),
        .write (.insertPayment (installmentPaymentRow db now id req plan a)),
        .tcommit],
       ⟨plan.amount_paid + a, plan.total_amount - (plan.amount_paid + a),
        if plan.total_amount - (plan.amount_paid + a) ≤ 0
          then "completed" else plan.status⟩) := by
  simp [recordInstallmentPayment, ha, hp, ha0]

/-! ## C4 — `advance`/`calculateNextDueDate` -/

/-- C4 counterexample: the claim states the monthly advance preserves the
day-of-month *clamped to shorter months*.  The source uses JavaScript
`setMonth`, which rolls an out-of-range day over into the following month
instead of clamping: from 2025-01-31 the code produces 2025-03-03, while
the clamping described by the spec would produce 2025-02-28. -/
theorem C4_counterexample :
    calculateNextDueDate ⟨2025, 1, 31⟩ "monthly" = ⟨2025, 3, 3⟩ ∧
    specAdvance ⟨2025, 1, 31⟩ "monthly" = ⟨2025, 2, 28⟩ ∧
    calculateNextDueDate ⟨2025, 1, 31⟩ "monthly" ≠
      specAdvance ⟨2025, 1, 31⟩ "monthly" := by
  refine ⟨by decide, by decide, by decide⟩

/-- C4 (amended): `calculateNextDueDate` is a pure function of its two
arguments that adds 7 days for weekly, 14 days for biweekly, 1 calendar
month for monthly and 3 calendar months for quarterly, where the calendar-
month addition keeps the day-of-month and lets an out-of-range day roll
over into the following month (JavaScript `Date` normalisation) rather
than clamping; in particular advance(2025-01-01, monthly) = 2025-02-01 and
advance(2025-02-01, monthly) = 2025-03-01, while advance(2025-01-31,
monthly) = 2025-03-03. -/
theorem C4_advance_behavior :
    (∀ d : SDate,
      calculateNextDueDate d "weekly" = d.addDays 7 ∧
      calculateNextDueDate d "biweekly" = d.addDays 14 ∧
      calculateNextDueDate d "monthly" = d.jsAddMonths 1 ∧
      calculateNextDueDate d "quarterly" = d.jsAddMonths 3) ∧
    calculateNextDueDate ⟨2025, 1, 1⟩ "monthly" = ⟨2025, 2, 1⟩ ∧
    calculateNextDueDate ⟨2025, 2, 1⟩ "monthly" = ⟨2025, 3, 1⟩ ∧
    calculateNextDueDate ⟨2025, 1, 15⟩ "weekly" = ⟨2025, 1, 22⟩ ∧
    calculateNextDueDate ⟨2025, 12, 25⟩ "biweekly" = ⟨2026, 1, 8⟩ ∧
    calculateNextDueDate ⟨2025, 11, 15⟩ "quarterly" = ⟨2026, 2, 15⟩ ∧
    calculateNextDueDate ⟨2025, 1, 31⟩ "monthly" = ⟨2025, 3, 3⟩ ∧
    calculateNextDueDate ⟨2024, 1, 31⟩ "monthly" = ⟨2024, 3, 2⟩ := by
  refine ⟨fun d => ⟨rfl, rfl, rfl, rfl⟩, by decide, by decide, by decide,
    by decide, by decide, by decide, by decide⟩

/-! ## C9 — status never reverts from completed -/

theorem findPlan_applyUpdate (db : DB) (id : Nat) (paid bal : Int)
    (nd : Option SDate) (st : String) :
    (applyWrite db (.updatePlanInstallment id paid bal nd st)).findPlan id =
      (db.findPlan id).map
        (fun p => { p with amount_paid := paid, balance := bal,
                           next_due_date := nd, status := st }) := by
  have h := find?_map_preserving db.plans
    (fun p => if p.plan_id == id then
      { p with amount_paid := paid, balance := bal,
               next_due_date := nd, status := st } else p)
    (fun p => p.plan_id) id
    (fun p => by by_cases hc : (p.plan_id == id) = true <;> simp [hc])
  simp only [applyWrite, DB.findPlan]
  rw [h]
  cases hf : db.plans.find? (fun p => p.plan_id == id) with
  | none => rfl
  | some p =>
    have hid := List.find?_some hf
    simp only [beq_iff_eq] at hid
    simp [hid]

/-- C9: a successful `recordInstallmentPayment` writes back the previously
stored status unless the newly computed balance is ≤ 0 (which forces
`completed`); consequently a plan whose stored status is `completed` keeps
status `completed` after any further installment recording. -/
theorem C9_completed_is_absorbing :
    ∀ (db : DB) (now : SDate) (id : Nat) (req : InstallReq) (a : Int)
      (plan : PlanRow),
      req.amount = some a → a ≠ 0 → db.findPlan id = some plan →
      ∃ tr : List TraceStep,
        recordInstallmentPayment db now id req = .ok (tr,
          ⟨plan.amount_paid + a, plan.total_amount - (plan.amount_paid + a),
           if plan.total_amount - (plan.amount_paid + a) ≤ 0
             then "completed" else plan.status⟩) ∧
        ((runOk db tr).findPlan id).map (fun p => p.status) =
          some (if plan.total_amount - (plan.amount_paid + a) ≤ 0
            then "completed" else plan.status) ∧
        (plan.status = "completed" →
          ((runOk db tr).findPlan id).map (fun p => p.status) =
            some "completed") := by
  intro db now id req a plan ha ha0 hp
  refine ⟨_, recordInstallment_eq db now id req a plan ha ha0 hp, ?_, ?_⟩
  · rw [runOk_txn2]
    have hpay : ∀ (x : DB) (row : PaymentRow),
        (applyWrite x (.insertPayment row)).findPlan id = x.findPlan id :=
      fun x row => rfl
    rw [hpay, findPlan_applyUpdate, hp]
    rfl
  · intro hst
    rw [runOk_txn2]
    have hpay : ∀ (x : DB) (row : PaymentRow),
        (applyWrite x (.insertPayment row)).findPlan id = x.findPlan id :=
      fun x row => rfl
    rw [hpay, findPlan_applyUpdate, hp]
    split <;> simp [hst]

theorem C9_witness :
    ∃ tr : List TraceStep,
      recordInstallmentPayment dbW9 ⟨2025, 2, 1⟩ 1 reqW9 = .ok (tr,
        ⟨planW9.amount_paid + 5, planW9.total_amount - (planW9.amount_paid + 5),
         if planW9.total_amount - (planW9.amount_paid + 5) ≤ 0
           then "completed" else planW9.status⟩) ∧
      ((runOk dbW9 tr).findPlan 1).map (fun p => p.status) =
        some (if planW9.total_amount - (planW9.amount_paid + 5) ≤ 0
          then "completed" else planW9.status) ∧
      (planW9.status = "completed" →
        ((runOk dbW9 tr).findPlan 1).map (fun p => p.status) =
          some "completed") :=
  C9_completed_is_absorbing dbW9 ⟨2025, 2, 1⟩ 1 reqW9 5 planW9 rfl
    (by norm_num) (by decide)

/-! ## C2 — the balance invariant -/

/-- Inversion of a successful `createPaymentPlan`: the single inserted row
has `amount_paid = 0`, `balance = total_amount`, `status = 'active'` and
the advanced due date. -/
theorem createPaymentPlan_ok_inv (db : DB) (req : CreatePlanReq)
    (tr : List TraceStep) (row : PlanRow)
    (h : createPaymentPlan db req = .ok (tr, row)) :
    tr = [.write (.insertPlan row)] ∧ row.amount_paid = 0 ∧
    row.balance = row.total_amount ∧ row.status = "active" ∧
    row.next_due_date =
      some (calculateNextDueDate row.start_date row.installment_frequency) := by
  unfold createPaymentPlan at h
  split at h
  · exact absurd h (by simp)
  · split at h
    next tid t i sd =>
      split at h
      · exact absurd h (by simp)
      · split at h
        · exact absurd h (by simp)
        · split at h
          · exact absurd h (by simp)
          · simp only [Except.ok.injEq, Prod.mk.injEq] at h
            obtain ⟨hl, hr⟩ := h
            subst hl
            subst hr
            exact ⟨rfl, rfl, rfl, rfl, rfl⟩
    next =>
      exact absurd h (by simp)

/-- Inversion of a successful `recordInstallmentPayment`: the request
carried a truthy amount and the plan row was found. -/
theorem recordInstallment_ok_shape (db : DB) (now : SDate) (id : Nat)
    (req : InstallReq) (tr : List TraceStep) (resp : InstallResp)
    (h : recordInstallmentPayment db now id req = .ok (tr, resp)) :
    ∃ a plan, req.amount = some a ∧ a ≠ 0 ∧ db.findPlan id = some plan := by
  cases hq : req.amount with
  | none => simp [recordInstallmentPayment, hq] at h
  | some a =>
    by_cases h0 : a = 0
    · simp [recordInstallmentPayment, hq, h0] at h
    · cases hp : db.findPlan id with
      | none => simp [recordInstallmentPayment, hq, h0, hp] at h
      | some plan => exact ⟨a, plan, rfl, h0, rfl⟩

/-- C2: plan creation establishes `balance = total_amount - amount_paid`
for the inserted row and preserves the invariant store-wide; every
successful installment recording preserves the invariant store-wide (plan
ids are `SERIAL` primary keys, hence the `Nodup` hypothesis). -/
theorem C2_balance_invariant :
    (∀ (db : DB) (req : CreatePlanReq) (tr : List TraceStep) (row : PlanRow),
      createPaymentPlan db req = .ok (tr, row) →
      row.balance = row.total_amount - row.amount_paid ∧
      (balanceInvariant db → balanceInvariant (runOk db tr))) ∧
    (∀ (db : DB) (now : SDate) (id : Nat) (req : InstallReq)
       (tr : List TraceStep) (resp : InstallResp),
      recordInstallmentPayment db now id req = .ok (tr, resp) →
      (db.plans.map (fun p => p.plan_id)).Nodup →
      balanceInvariant db → balanceInvariant (runOk db tr)) := by
  constructor
  · intro db req tr row h
    obtain ⟨htr, hpaid, hbal, -, -⟩ := createPaymentPlan_ok_inv db req tr row h
    constructor
    · rw [hpaid, hbal, sub_zero]
    · intro hinv
      subst htr
      rw [runOk_singleWrite]
      intro p hp
      simp only [applyWrite, List.mem_append, List.mem_singleton] at hp
      rcases hp with hp | hp
      · exact hinv p hp
      · subst hp
        rw [hpaid, hbal, sub_zero]
  · intro db now id req tr resp h hnd hinv
    obtain ⟨a, plan, ha, ha0, hp⟩ :=
      recordInstallment_ok_shape db now id req tr resp h
    have heq := recordInstallment_eq db now id req a plan ha ha0 hp
    have hcomb := h.symm.trans heq
    simp only [Except.ok.injEq, Prod.mk.injEq] at hcomb
    obtain ⟨htr, -⟩ := hcomb
    subst htr
    rw [runOk_txn2]
    intro p hpmem
    simp only [applyWrite] at hpmem
    obtain ⟨q, hq, rfl⟩ := List.mem_map.mp hpmem
    have hplanfind : db.plans.find? (fun x => x.plan_id == id) = some plan := hp
    have hplanmem : plan ∈ db.plans := List.mem_of_find?_eq_some hplanfind
    have hplanid : plan.plan_id = id := by
      simpa using List.find?_some hplanfind
    by_cases hqid : (q.plan_id == id) = true
    · have hqid' : q.plan_id = id := by simpa using hqid
      have hqplan : q = plan :=
        List.inj_on_of_nodup_map hnd hq hplanmem (by rw [hqid', hplanid])
      subst hqplan
      simp [hqid]
    · simp only [hqid]
      simp only [Bool.false_eq_true, if_false]
      exact hinv q hq

theorem C2_witness :
    rowW2.balance = rowW2.total_amount - rowW2.amount_paid ∧
    (balanceInvariant dbW2 →
      balanceInvariant (runOk dbW2 [.write (.insertPlan rowW2)])) :=
  C2_balance_invariant.1 dbW2 reqW2 [.write (.insertPlan rowW2)] rowW2
    (by decide)

/-! ## C1 — the installment route -/

/-- C1 counterexample: the claim prescribes `next_due_date =
advance(payment_date ?? now, frequency)` whenever `new_balance > 0`, but
on a plan whose stored status is already `completed` (reachable through
`updatePaymentPlan`, which sets `status` freely) with `new_balance = 90 >
0`, the code writes `next_due_date = null` because it keys the null-ing on
the *resulting status*, which inherits `completed` from the stored row. -/
theorem C1_counterexample :
    (recordInstallmentPayment dbC1x ⟨2025, 3, 1⟩ 1 reqC1x).map
        (fun pr => ((runOk dbC1x pr.1).findPlan 1).map
          (fun p => (p.next_due_date, p.balance))) =
      .ok (some (none, 90)) ∧
    ¬ ((90 : Int) ≤ 0) ∧
    (none : Option SDate) ≠
      some (calculateNextDueDate ⟨2025, 3, 1⟩ "monthly") := by
  refine ⟨by decide, by decide, by decide⟩

/-- C1 (amended): for every existing plan and truthy installment amount,
`recordInstallmentPayment` runs one transaction that reads the plan,
computes `new_amount_paid = amount_paid + amount` and `new_balance =
total_amount - new_amount_paid`, sets `status = completed` if
`new_balance ≤ 0` and otherwise keeps the stored status; it sets
`next_due_date = null` when the *resulting* status is `completed` (hence
also on a plan already stored as completed even when `new_balance > 0`)
and otherwise `advance(payment_date ?? now, frequency)`; it writes the
plan row, inserts the corresponding payment row, and a failure at any
point before `COMMIT` leaves the store untouched; the response carries
`{new_amount_paid, new_balance, status}`; an unknown plan id fails with
`NotFound`. -/
theorem C1_record_installment :
    (∀ (db : DB) (now : SDate) (id : Nat) (req : InstallReq) (a : Int)
       (plan : PlanRow),
      req.amount = some a → a ≠ 0 → db.findPlan id = some plan →
      ∃ tr : List TraceStep,
        recordInstallmentPayment db now id req = .ok (tr,
          ⟨plan.amount_paid + a, plan.total_amount - (plan.amount_paid + a),
           if plan.total_amount - (plan.amount_paid + a) ≤ 0
             then "completed" else plan.status⟩) ∧
        (runOk db tr).plans = db.plans.map (fun p =>
          if p.plan_id == id then
            { p with
              amount_paid := plan.amount_paid + a,
              balance := plan.total_amount - (plan.amount_paid + a),
              next_due_date :=
                if (if plan.total_amount - (plan.amount_paid + a) ≤ 0
                      then "completed" else plan.status) = "completed"
                then none
                else some (calculateNextDueDate (req.payment_date.getD now)
                            plan.installment_frequency),
              status := if plan.total_amount - (plan.amount_paid + a) ≤ 0
                then "completed" else plan.status }
          else p) ∧
        (runOk db tr).payments =
          db.payments ++ [installmentPaymentRow db now id req plan a] ∧
        (∀ k, k < tr.length → runTrace db none tr (some k) = db)) ∧
    (∀ (db : DB) (now : SDate) (id : Nat) (req : InstallReq) (a : Int),
      req.amount = some a → a ≠ 0 → db.findPlan id = none →
      recordInstallmentPayment db now id req =
        .error (.notFound "Payment plan not found")) := by
  constructor
  · intro db now id req a plan ha ha0 hp
    refine ⟨_, recordInstallment_eq db now id req a plan ha ha0 hp, rfl, rfl, ?_⟩
    intro k hk
    exact runTrace_txn2_fail db _ _ k hk
  · intro db now id req a ha ha0 hp
    simp [recordInstallmentPayment, ha, ha0, hp]

theorem C1_witness :
    ∃ tr : List TraceStep,
      recordInstallmentPayment dbW1 ⟨2025, 2, 1⟩ 1 reqW1 = .ok (tr,
        ⟨planW1.amount_paid + 5000,
         planW1.total_amount - (planW1.amount_paid + 5000),
         if planW1.total_amount - (planW1.amount_paid + 5000) ≤ 0
           then "completed" else planW1.status⟩) ∧
      (runOk dbW1 tr).plans = dbW1.plans.map (fun p =>
        if p.plan_id == 1 then
          { p with
            amount_paid := planW1.amount_paid + 5000,
            balance := planW1.total_amount - (planW1.amount_paid + 5000),
            next_due_date :=
              if (if planW1.total_amount - (planW1.amount_paid + 5000) ≤ 0
                    then "completed" else planW1.status) = "completed"
              then none
              else some (calculateNextDueDate
                          (reqW1.payment_date.getD ⟨2025, 2, 1⟩)
                          planW1.installment_frequency),
            status := if planW1.total_amount - (planW1.amount_paid + 5000) ≤ 0
              then "completed" else planW1.status }
        else p) ∧
      (runOk dbW1 tr).payments =
        dbW1.payments ++
          [installmentPaymentRow dbW1 ⟨2025, 2, 1⟩ 1 reqW1 planW1 5000] ∧
      (∀ k, k < tr.length → runTrace dbW1 none tr (some k) = dbW1) :=
  C1_record_installment.1 dbW1 ⟨2025, 2, 1⟩ 1 reqW1 5000 planW1 rfl
    (by norm_num) (by decide)

/-! ## C3 — tenant writes and occupancy flips are not transactional -/

/-- C3 (code bug): tenant creation with a `unit_id` issues the occupancy
flip and the tenant insert as two separate auto-committed statements with
no `BEGIN`/`COMMIT`, and tenant soft-delete likewise deactivates the
tenant and releases the unit in two separate statements.  A failure after
the first statement (injected at index 1) leaves the partial state
observable: on create, the unit is marked occupied while no tenant row
exists; on delete, the tenant is deactivated while the unit stays marked
occupied. -/
theorem C3_torn_writes :
    createTenant dbC3 reqC3 = .ok (trC3, rowC3) ∧
    TraceStep.tbegin ∉ trC3 ∧
    (runTrace dbC3 none trC3 (some 1)).tenants = [] ∧
    ((runTrace dbC3 none trC3 (some 1)).findUnit 5).map
      (fun u => u.is_occupied) = some true ∧
    deleteTenant dbC3d 2 = .ok (trC3d, { tenC3d with is_active := false }) ∧
    TraceStep.tbegin ∉ trC3d ∧
    ((runTrace dbC3d none trC3d (some 1)).findTenant 2).map
      (fun t => t.is_active) = some false ∧
    ((runTrace dbC3d none trC3d (some 1)).findUnit 5).map
      (fun u => u.is_occupied) = some true := by
  refine ⟨by decide, by decide, by decide, by decide, by decide, by decide,
    by decide, by decide⟩

/-! ## C5 — plan creation -/

theorem optNatTruthy_shape {o : Option Nat} (h : optNatTruthy o = true) :
    ∃ n, o = some n ∧ n ≠ 0 := by
  cases o with
  | none => simp [optNatTruthy] at h
  | some n =>
    refine ⟨n, rfl, ?_⟩
    simpa [optNatTruthy] using h

theorem jsAmtTruthy_shape {o : Option JsNum} (h : jsAmtTruthy o = true) :
    (∃ q, o = some (.num q) ∧ q ≠ 0) ∨ o = some .nan := by
  cases o with
  | none => simp [jsAmtTruthy] at h
  | some jn =>
    cases jn with
    | num q =>
      left
      refine ⟨q, rfl, ?_⟩
      simpa [jsAmtTruthy] using h
    | nan => right; rfl

/-- C5: `createPaymentPlan` inserts a row with `amount_paid = 0`,
`balance = total_amount`, `status = active` and `next_due_date =
advance(start_date, frequency)`, defaulting the frequency to `monthly`
when omitted; a zero amount fails the required-fields validation (400), a
truthy non-numeric or negative amount fails the positive-numbers
validation (400), `installment > total` fails its own validation (400),
and a frequency outside the enumerated set fails with the
invalid-frequency message (400). -/
theorem C5_createPlan_spec :
    (∀ (db : DB) (req : CreatePlanReq) (tid : Nat) (t i : Int) (sd : SDate),
      req.tenant_id = some tid → tid ≠ 0 →
      req.total_amount = some (.num t) →
      req.installment_amount = some (.num i) →
      req.start_date = some sd →
      0 < t → 0 < i → i ≤ t →
      validFrequencies.contains (jsOrStr req.installment_frequency "monthly") = true →
      createPaymentPlan db req =
        .ok ([.write (.insertPlan (createPlanRow db req tid t i sd))],
             createPlanRow db req tid t i sd) ∧
      (createPlanRow db req tid t i sd).amount_paid = 0 ∧
      (createPlanRow db req tid t i sd).balance = t ∧
      (createPlanRow db req tid t i sd).total_amount = t ∧
      (createPlanRow db req tid t i sd).status = "active" ∧
      (createPlanRow db req tid t i sd).next_due_date =
        some (calculateNextDueDate sd
          (jsOrStr req.installment_frequency "monthly")) ∧
      (req.installment_frequency = none →
        (createPlanRow db req tid t i sd).installment_frequency = "monthly")) ∧
    (∀ (db : DB) (req : CreatePlanReq),
      req.total_amount = some (.num 0) ∨ req.installment_amount = some (.num 0) →
      createPaymentPlan db req = .error (.badRequest
        "Missing required fields: tenant_id, total_amount, installment_amount, start_date")) ∧
    (∀ (db : DB) (req : CreatePlanReq),
      optNatTruthy req.tenant_id = true → req.start_date.isSome = true →
      jsAmtTruthy req.total_amount = true →
      jsAmtTruthy req.installment_amount = true →
      (req.total_amount = some .nan ∨ req.installment_amount = some .nan ∨
       (∃ t, req.total_amount = some (.num t) ∧ t < 0) ∨
       (∃ i, req.installment_amount = some (.num i) ∧ i < 0)) →
      createPaymentPlan db req = .error (.badRequest
        "Total amount and installment amount must be positive numbers")) ∧
    (∀ (db : DB) (req : CreatePlanReq) (tid : Nat) (t i : Int) (sd : SDate),
      req.tenant_id = some tid → tid ≠ 0 →
      req.total_amount = some (.num t) →
      req.installment_amount = some (.num i) →
      req.start_date = some sd →
      0 < t → 0 < i → i > t →
      createPaymentPlan db req = .error (.badRequest
        "Installment amount cannot be greater than total amount")) ∧
    (∀ (db : DB) (req : CreatePlanReq) (tid : Nat) (t i : Int) (sd : SDate),
      req.tenant_id = some tid → tid ≠ 0 →
      req.total_amount = some (.num t) →
      req.installment_amount = some (.num i) →
      req.start_date = some sd →
      0 < t → 0 < i → i ≤ t →
      validFrequencies.contains (jsOrStr req.installment_frequency "monthly") = false →
      createPaymentPlan db req = .error (.badRequest
        "Invalid installment frequency. Must be one of: weekly, biweekly, monthly, quarterly")) := by
  refine ⟨?_, ?_, ?_, ?_, ?_⟩
  · intro db req tid t i sd h1 h2 h3 h4 h5 h6 h7 h8 h9
    have ht0 : t ≠ 0 := by omega
    have hi0 : i ≠ 0 := by omega
    have h9' : jsOrStr req.installment_frequency "monthly" ∈ validFrequencies := by
      simpa using h9
    refine ⟨?_, rfl, rfl, rfl, rfl, rfl, fun hf => by
      simp [createPlanRow, jsOrStr, hf]⟩
    simp [createPaymentPlan, h1, h2, h3, h4, h5, ht0, hi0, optNatTruthy,
      jsAmtTruthy, h9', not_le.mpr h6, not_le.mpr h7, not_lt.mpr h8]
  · intro db req hz
    rcases hz with hz | hz <;>
      simp [createPaymentPlan, hz, jsAmtTruthy]
  · intro db req h1 h2 h3 h4 hbad
    obtain ⟨tid, htid, htid0⟩ := optNatTruthy_shape h1
    obtain ⟨sd, hsd⟩ := Option.isSome_iff_exists.mp h2
    rcases jsAmtTruthy_shape h3 with ⟨t, ht, ht0⟩ | ht <;>
      rcases jsAmtTruthy_shape h4 with ⟨i, hi, hi0⟩ | hi
    · -- both numeric: one of them must be negative
      rcases hbad with hb | hb | ⟨t', hb, hb'⟩ | ⟨i', hb, hb'⟩
      · rw [ht] at hb; exact absurd hb (by simp)
      · rw [hi] at hb; exact absurd hb (by simp)
      · rw [ht] at hb
        simp only [Option.some.injEq, JsNum.num.injEq] at hb
        subst hb
        simp [createPaymentPlan, htid, htid0, ht, hi, hsd, ht0, hi0,
          optNatTruthy, jsAmtTruthy, Or.inl (le_of_lt hb')]
      · rw [hi] at hb
        simp only [Option.some.injEq, JsNum.num.injEq] at hb
        subst hb
        simp [createPaymentPlan, htid, htid0, ht, hi, hsd, ht0, hi0,
          optNatTruthy, jsAmtTruthy, Or.inr (le_of_lt hb')]
    · simp [createPaymentPlan, htid, htid0, ht, hi, hsd, ht0,
        optNatTruthy, jsAmtTruthy]
    · simp [createPaymentPlan, htid, htid0, ht, hi, hsd, hi0,
        optNatTruthy, jsAmtTruthy]
    · simp [createPaymentPlan, htid, htid0, ht, hi, hsd,
        optNatTruthy, jsAmtTruthy]
  · intro db req tid t i sd h1 h2 h3 h4 h5 h6 h7 h8
    have ht0 : t ≠ 0 := by omega
    have hi0 : i ≠ 0 := by omega
    simp [createPaymentPlan, h1, h2, h3, h4, h5, ht0, hi0, optNatTruthy,
      jsAmtTruthy, not_le.mpr h6, not_le.mpr h7, h8]
  · intro db req tid t i sd h1 h2 h3 h4 h5 h6 h7 h8 h9
    have ht0 : t ≠ 0 := by omega
    have hi0 : i ≠ 0 := by omega
    have h9' : jsOrStr req.installment_frequency "monthly" ∉ validFrequencies := by
      simpa using h9
    simp [createPaymentPlan, h1, h2, h3, h4, h5, ht0, hi0, optNatTruthy,
      jsAmtTruthy, not_le.mpr h6, not_le.mpr h7, not_lt.mpr h8, h9']

theorem C5_witness :
    createPaymentPlan dbW5 reqW5 =
      .ok ([.write (.insertPlan (createPlanRow dbW5 reqW5 9 12000 4000 ⟨2025, 6, 15⟩))],
           createPlanRow dbW5 reqW5 9 12000 4000 ⟨2025, 6, 15⟩) ∧
    (createPlanRow dbW5 reqW5 9 12000 4000 ⟨2025, 6, 15⟩).amount_paid = 0 ∧
    (createPlanRow dbW5 reqW5 9 12000 4000 ⟨2025, 6, 15⟩).balance = 12000 ∧
    (createPlanRow dbW5 reqW5 9 12000 4000 ⟨2025, 6, 15⟩).total_amount = 12000 ∧
    (createPlanRow dbW5 reqW5 9 12000 4000 ⟨2025, 6, 15⟩).status = "active" ∧
    (createPlanRow dbW5 reqW5 9 12000 4000 ⟨2025, 6, 15⟩).next_due_date =
      some (calculateNextDueDate ⟨2025, 6, 15⟩
        (jsOrStr reqW5.installment_frequency "monthly")) ∧
    (reqW5.installment_frequency = none →
      (createPlanRow dbW5 reqW5 9 12000 4000 ⟨2025, 6, 15⟩).installment_frequency =
        "monthly") :=
  C5_createPlan_spec.1 dbW5 reqW5 9 12000 4000 ⟨2025, 6, 15⟩ rfl
    (by norm_num) rfl rfl rfl (by norm_num) (by norm_num) (by norm_num)
    (by decide)

/-! ## C6 — paid commissions and the notes loophole -/

/-- C6 counterexample: commission 7 is `paid` with amount 1500, yet an
update that bundles `commission_amount = 2000` with a non-empty `notes`
value is accepted and changes the stored amount, because the guard is
`status === 'paid' && !updates.notes` — any truthy `notes` disables the
paid-immutability check for the whole `SET` clause. -/
theorem C6_counterexample :
    (dbC6.findCommission 7).map (fun c => (c.status, c.commission_amount)) =
      some ("paid", 1500) ∧
    (updateCommission dbC6 7 reqC6).map
        (fun pr => ((runOk dbC6 pr.1).findCommission 7).map
          (fun c => c.commission_amount)) = .ok (some 2000) := by
  refine ⟨by decide, by decide⟩

/-- C6 (amended): when the stored status is `paid`, an update whose body
carries no truthy `notes` value is rejected, and an update setting only
`notes` succeeds, changing nothing but `notes`; however the guard only
checks for the presence of a truthy `notes`, so an update bundling other
whitelisted fields with a non-empty `notes` is accepted and applies all of
them (the counterexample). -/
theorem C6_paid_update_rule :
    (∀ (db : DB) (id : Nat) (req : CommissionUpdateReq) (c : CommissionRow),
      db.findCommission id = some c → c.status = "paid" →
      req.hasAnyField = true → validateCommissionInput req true = [] →
      optStrTruthy req.notes = false →
      updateCommission db id req = .error (.badRequest
        "Cannot modify paid commissions. Only notes can be updated.")) ∧
    (∀ (db : DB) (id : Nat) (s : String) (c : CommissionRow),
      db.findCommission id = some c → c.status = "paid" → s ≠ "" →
      updateCommission db id
          { tenant_id := none, property_id := none, agent_name := none,
            agent_phone := none, commission_amount := none,
            commission_percentage := none, status := none, notes := some s } =
        .ok ([.tbegin,
              .write (.setCommissionFields id
                { tenant_id := none, property_id := none, agent_name := none,
                  agent_phone := none, commission_amount := none,
                  commission_percentage := none, status := none,
                  notes := some s }),
              .tcommit],
             { c with notes := some s }) ∧
      (runOk db [.tbegin,
          .write (.setCommissionFields id
            { tenant_id := none, property_id := none, agent_name := none,
              agent_phone := none, commission_amount := none,
              commission_percentage := none, status := none,
              notes := some s }),
          .tcommit]).commissions =
        db.commissions.map (fun x =>
          if x.commission_id == id then { x with notes := some s } else x)) := by
  constructor
  · intro db id req c hc hst hany hval hnotes
    simp [updateCommission, hc, hst, hany, hval, hnotes]
  · intro db id s c hc hst hs
    have hnotes : optStrTruthy (some s) = true := by simp [optStrTruthy, hs]
    constructor
    · simp [updateCommission, hc, hst, hnotes, hs,
        CommissionUpdateReq.hasAnyField, validateCommissionInput,
        optStrTruthy, optNatTruthy, optNumTruthy, applyCommissionUpdate]
    · rw [runOk_txn1]
      simp only [applyWrite]
      apply List.map_congr_left
      intro x _
      by_cases hx : (x.commission_id == id) = true <;>
        simp [hx, applyCommissionUpdate]

theorem C6_witness :
    updateCommission dbC6 7 { commission_amount := some 2000 } =
      .error (.badRequest
        "Cannot modify paid commissions. Only notes can be updated.") ∧
    (updateCommission dbC6 7 { notes := some "x" } =
      .ok ([.tbegin,
            .write (.setCommissionFields 7 { notes := some "x" }),
            .tcommit],
           { comC6 with notes := some "x" }) ∧
     (runOk dbC6 [.tbegin,
        .write (.setCommissionFields 7 { notes := some "x" }),
        .tcommit]).commissions =
       dbC6.commissions.map (fun x =>
         if x.commission_id == 7 then { x with notes := some "x" } else x)) :=
  ⟨C6_paid_update_rule.1 dbC6 7 { commission_amount := some 2000 } comC6
     (by decide) (by decide) (by decide) (by decide) (by decide),
   C6_paid_update_rule.2 dbC6 7 "x" comC6 (by decide) (by decide) (by decide)⟩

/-! ## C7 — monotonicity of `amount_paid` -/

/-- C7 counterexample: the route validates only JavaScript truthiness of
the amount (`if (!amount)`), so a negative amount is accepted and
decreases `amount_paid`: from `amount_paid = 10`, recording `-5` is
accepted (response `new_amount_paid = 5`) and the stored `amount_paid`
drops from 10 to 5. -/
theorem C7_counterexample :
    (dbC7.findPlan 1).map (fun p => p.amount_paid) = some 10 ∧
    (recordInstallmentPayment dbC7 ⟨2025, 3, 1⟩ 1 reqC7).map
      (fun pr => pr.2.new_amount_paid) = .ok 5 ∧
    ((stepInstallment ⟨2025, 3, 1⟩ 1 dbC7 reqC7).findPlan 1).map
      (fun p => p.amount_paid) = some 5 ∧
    ¬ ((10 : Int) ≤ 5) := by
  refine ⟨by decide, by decide, by decide, by decide⟩

theorem stepInstallment_paid_mono (now : SDate) (id : Nat) (db : DB)
    (req : InstallReq) (hreq : ∀ a, req.amount = some a → 0 ≤ a)
    (p : Int)
    (hp : (db.findPlan id).map (fun x => x.amount_paid) = some p) :
    ∃ q, ((stepInstallment now id db req).findPlan id).map
        (fun x => x.amount_paid) = some q ∧ p ≤ q := by
  cases hfind : db.findPlan id with
  | none => rw [hfind] at hp; simp at hp
  | some plan =>
    rw [hfind] at hp
    simp only [Option.map_some', Option.some.injEq] at hp
    cases hq : req.amount with
    | none =>
      unfold stepInstallment
      rw [show recordInstallmentPayment db now id req =
        .error (.badRequest "Payment amount is required") from by
          simp [recordInstallmentPayment, hq]]
      exact ⟨p, by rw [hfind]; simpa using hp, le_refl p⟩
    | some a =>
      by_cases h0 : a = 0
      · unfold stepInstallment
        rw [show recordInstallmentPayment db now id req =
          .error (.badRequest "Payment amount is required") from by
            simp [recordInstallmentPayment, hq, h0]]
        exact ⟨p, by rw [hfind]; simpa using hp, le_refl p⟩
      · have heq := recordInstallment_eq db now id req a plan hq h0 hfind
        unfold stepInstallment
        rw [heq]
        have hpayfp : ∀ (x : DB) (row : PaymentRow),
            (applyWrite x (.insertPayment row)).findPlan id = x.findPlan id :=
          fun x row => rfl
        show ∃ q, ((runOk db _).findPlan id).map (fun x => x.amount_paid) =
          some q ∧ p ≤ q
        rw [runOk_txn2, hpayfp, findPlan_applyUpdate, hfind]
        refine ⟨plan.amount_paid + a, by simp, ?_⟩
        have ha : 0 ≤ a := hreq a hq
        omega

/-- C7 (amended): across any sequence of installment calls whose amounts
are all nonnegative, the stored `amount_paid` of a plan never decreases
(each accepted call adds the amount; rejected calls leave the store
unchanged).  The unamended claim fails because the route also accepts
negative amounts, which decrease `amount_paid`. -/
theorem C7_paid_monotone :
    ∀ (now : SDate) (id : Nat) (reqs : List InstallReq),
      (∀ r ∈ reqs, ∀ a, r.amount = some a → 0 ≤ a) →
      ∀ (db : DB) (p : Int),
        (db.findPlan id).map (fun x => x.amount_paid) = some p →
        ∃ q, ((runInstallments db now id reqs).findPlan id).map
            (fun x => x.amount_paid) = some q ∧ p ≤ q := by
  intro now id reqs
  induction reqs with
  | nil =>
    intro h db p hp
    exact ⟨p, hp, le_refl p⟩
  | cons r rest ih =>
    intro h db p hp
    obtain ⟨q, hq, hpq⟩ :=
      stepInstallment_paid_mono now id db r (fun a ha => h r (by simp) a ha) p hp
    obtain ⟨q', hq', hqq'⟩ :=
      ih (fun r' hr' a ha => h r' (by simp [hr']) a ha)
        (stepInstallment now id db r) q hq
    exact ⟨q', by simpa [runInstallments] using hq', le_trans hpq hqq'⟩

theorem C7_witness :
    ∃ q, ((runInstallments dbW7 ⟨2025, 2, 1⟩ 1
        [{ amount := some 5 }, { amount := some 10 }]).findPlan 1).map
        (fun x => x.amount_paid) = some q ∧ (0 : Int) ≤ q :=
  C7_paid_monotone ⟨2025, 2, 1⟩ 1
    [{ amount := some 5 }, { amount := some 10 }]
    (by
      intro r hr a ha
      simp only [List.mem_cons, List.not_mem_nil, or_false] at hr
      rcases hr with rfl | rfl <;> (simp at ha; omega))
    dbW7 0 (by decide)

/-! ## C8 — payment cancellation -/

theorem findPayment_applyCancel (db : DB) (id : Nat) :
    (applyWrite db (.setPaymentCancelled id)).findPayment id =
      (db.findPayment id).map
        (fun p => { p with payment_status := "cancelled" }) := by
  have h := find?_map_preserving db.payments
    (fun p => if p.payment_id == id then
      { p with payment_status := "cancelled" } else p)
    (fun p => p.payment_id) id
    (fun p => by by_cases hc : (p.payment_id == id) = true <;> simp [hc])
  simp only [applyWrite, DB.findPayment]
  rw [h]
  cases hf : db.payments.find? (fun p => p.payment_id == id) with
  | none => rfl
  | some p =>
    have hid := List.find?_some hf
    simp only [beq_iff_eq] at hid
    simp [hid]

/-- C8 counterexample: payment 1 is already `cancelled`, yet
`deletePayment` accepts the request again and answers with a success
response (`Except.ok`), not with the no-op *error* the claim requires; the
store is left unchanged. -/
theorem C8_counterexample :
    (dbC8.findPayment 1).map (fun p => p.payment_status) =
      some "cancelled" ∧
    (deletePayment dbC8 1).map
      (fun pr => (runOk dbC8 pr.1, pr.2.payment_status)) =
      .ok (dbC8, "cancelled") := by
  refine ⟨by decide, by decide⟩

/-- C8 (amended): cancelling a payment transitions its status to
`cancelled` in place — the row count is preserved, the row is never
deleted — and an unknown id fails with `NotFound`; cancelling an
already-cancelled payment is accepted again with a success response and
leaves the store unchanged (idempotent in state, but reported as success
rather than as an error). -/
theorem C8_cancel_payment :
    (∀ (db : DB) (id : Nat), db.findPayment id = none →
      deletePayment db id = .error (.notFound "Payment not found")) ∧
    (∀ (db : DB) (id : Nat) (p : PaymentRow), db.findPayment id = some p →
      deletePayment db id =
        .ok ([.tbegin, .write (.setPaymentCancelled id), .tcommit],
             { p with payment_status := "cancelled" }) ∧
      (runOk db [.tbegin, .write (.setPaymentCancelled id),
        .tcommit]).payments =
        db.payments.map (fun x => if x.payment_id == id then
          { x with payment_status := "cancelled" } else x) ∧
      (runOk db [.tbegin, .write (.setPaymentCancelled id),
        .tcommit]).payments.length = db.payments.length ∧
      ((runOk db [.tbegin, .write (.setPaymentCancelled id),
        .tcommit]).findPayment id).map (fun x => x.payment_status) =
        some "cancelled" ∧
      (p.payment_status = "cancelled" →
        (db.payments.map (fun x => x.payment_id)).Nodup →
        runOk db [.tbegin, .write (.setPaymentCancelled id), .tcommit] =
          db)) := by
  constructor
  · intro db id h
    simp [deletePayment, h]
  · intro db id p hp
    refine ⟨by simp [deletePayment, hp], by rw [runOk_txn1]; rfl, ?_, ?_, ?_⟩
    · rw [runOk_txn1]
      simp [applyWrite]
    · rw [runOk_txn1, findPayment_applyCancel, hp]
      simp
    · intro hst hnd
      have hfind : db.payments.find? (fun x => x.payment_id == id) = some p :=
        hp
      have hmem : p ∈ db.payments := List.mem_of_find?_eq_some hfind
      have hpid : p.payment_id = id := by
        simpa using List.find?_some hfind
      have hcong : ∀ x ∈ db.payments,
          (if x.payment_id == id then
            { x with payment_status := "cancelled" } else x) = x := by
        intro x hx
        by_cases hxid : (x.payment_id == id) = true
        · have hx' : x.payment_id = id := by simpa using hxid
          have hxp : x = p :=
            List.inj_on_of_nodup_map hnd hx hmem (by rw [hx', hpid])
          subst hxp
          rw [if_pos hxid, ← hst]
        · simp [hxid]
      have hmap : db.payments.map (fun x => if x.payment_id == id then
          { x with payment_status := "cancelled" } else x) = db.payments := by
        calc db.payments.map (fun x => if x.payment_id == id then
                { x with payment_status := "cancelled" } else x)
            = db.payments.map (fun x => x) := List.map_congr_left hcong
          _ = db.payments := by simp
      rw [runOk_txn1]
      simp only [applyWrite]
      rw [hmap]

theorem C8_witness :
    deletePayment dbW8 99 = .error (.notFound "Payment not found") ∧
    (deletePayment dbW8 2 =
      .ok ([.tbegin, .write (.setPaymentCancelled 2), .tcommit],
           { payW8 with payment_status := "cancelled" }) ∧
     (runOk dbW8 [.tbegin, .write (.setPaymentCancelled 2),
       .tcommit]).payments =
       dbW8.payments.map (fun x => if x.payment_id == 2 then
         { x with payment_status := "cancelled" } else x) ∧
     (runOk dbW8 [.tbegin, .write (.setPaymentCancelled 2),
       .tcommit]).payments.length = dbW8.payments.length ∧
     ((runOk dbW8 [.tbegin, .write (.setPaymentCancelled 2),
       .tcommit]).findPayment 2).map (fun x => x.payment_status) =
       some "cancelled" ∧
     (payW8.payment_status = "cancelled" →
       (dbW8.payments.map (fun x => x.payment_id)).Nodup →
       runOk dbW8 [.tbegin, .write (.setPaymentCancelled 2), .tcommit] =
         dbW8)) :=
  ⟨C8_cancel_payment.1 dbW8 99 (by decide),
   C8_cancel_payment.2 dbW8 2 payW8 (by decide)⟩

/-! ## C10 — phone normalisation and validation -/

theorem normalizePhone_ne_empty {s : String} (hs : s ≠ "") :
    normalizePhone s ≠ "" := by
  unfold normalizePhone
  split
  · intro hcontr
    have hlen := congrArg String.length hcontr
    simp [String.length_append] at hlen
    exact absurd hlen.1 (by decide)
  · exact hs

/-- Inversion of a successful `createTenant`: the inserted row is
`createTenantRow` (whose phone is the normalised request phone) and the
normalised phone passed the regex test. -/
theorem createTenant_ok_inv (db : DB) (req : CreateTenantReq)
    (tr : List TraceStep) (row : TenantRow)
    (h : createTenant db req = .ok (tr, row)) :
    row = createTenantRow db req ∧
    phoneRegexTest (normalizePhone req.phone) = true := by
  unfold createTenant at h
  split at h
  · exact absurd h (by simp)
  · split at h
    next hreg =>
      exact absurd h (by simp)
    next hreg =>
      have hreg' : phoneRegexTest (normalizePhone req.phone) = true := by
        simpa using hreg
      split at h
      · exact absurd h (by simp)
      · split at h
        · exact absurd h (by simp)
        · split at h
          · split at h
            next uid =>
              split at h
              · exact absurd h (by simp)
              · split at h
                · exact absurd h (by simp)
                · simp only [Except.ok.injEq, Prod.mk.injEq] at h
                  exact ⟨h.2.symm, hreg'⟩
            next =>
              simp only [Except.ok.injEq, Prod.mk.injEq] at h
              exact ⟨h.2.symm, hreg'⟩
          · simp only [Except.ok.injEq, Prod.mk.injEq] at h
            exact ⟨h.2.symm, hreg'⟩

/-- C10 counterexample: an update supplying `phone: ""` is falsy in
JavaScript, so it bypasses both the normalisation and the regex
validation, yet the empty string is still a present body key and reaches
the `SET` clause: the update succeeds and stores `""` as the tenant's
phone, which does not match `+254[17]` followed by eight digits — no 400
is returned. -/
theorem C10_counterexample :
    (updateTenant dbC10 1 { phone := some "" }).map
      (fun pr => ((runOk dbC10 pr.1).findTenant 1).map (fun t => t.phone)) =
      .ok (some "") ∧
    phoneRegexTest "" = false := by
  refine ⟨by decide, by decide⟩

/-- C10 (amended): a phone beginning `07` normalises to `+254` followed by
the digits after the leading zero; every phone stored by a successful
`createTenant` is the normalised request phone and matches
`+254[17]` + 8 digits; a phone whose normalisation fails the pattern makes
`createTenant` fail with a 400 before any write, and a *non-empty* phone
whose normalisation fails the pattern makes `updateTenant` fail with a 400
before any write, while a successful update with a non-empty phone stores
the normalised, pattern-matching value.  Exception forced by the
counterexample: an update supplying an empty-string phone skips
validation and stores `""`. -/
theorem C10_phone_validation :
    (∀ (s : String) (rest : List Char), s.toList = '0' :: '7' :: rest →
      normalizePhone s = "+254" ++ s.drop 1) ∧
    (∀ (db : DB) (req : CreateTenantReq) (tr : List TraceStep)
       (row : TenantRow), createTenant db req = .ok (tr, row) →
      row.phone = normalizePhone req.phone ∧
      phoneRegexTest row.phone = true) ∧
    (∀ (db : DB) (req : CreateTenantReq),
      phoneRegexTest (normalizePhone req.phone) = false →
      ∃ e, createTenant db req = .error e) ∧
    (∀ (db : DB) (id : Nat) (req : UpdateTenantReq) (t : TenantRow)
       (s : String), db.findTenant id = some t → req.phone = some s →
      s ≠ "" → phoneRegexTest (normalizePhone s) = false →
      updateTenant db id req =
        .error (.badRequest "Invalid phone number format")) ∧
    (∀ (db : DB) (id : Nat) (req : UpdateTenantReq) (tr : List TraceStep)
       (row : TenantRow) (s : String), req.phone = some s → s ≠ "" →
      updateTenant db id req = .ok (tr, row) →
      row.phone = normalizePhone s ∧ phoneRegexTest row.phone = true) := by
  refine ⟨?_, ?_, ?_, ?_, ?_⟩
  · intro s rest h
    have h' : s.data = '0' :: '7' :: rest := h
    simp [normalizePhone, h']
  · intro db req tr row h
    obtain ⟨hrow, hreg⟩ := createTenant_ok_inv db req tr row h
    subst hrow
    exact ⟨rfl, hreg⟩
  · intro db req hreg
    unfold createTenant
    split
    · exact ⟨_, rfl⟩
    · rw [if_pos (by simp [hreg])]
      exact ⟨_, rfl⟩
  · intro db id req t s ht hps hs hreg
    have hnp : (normalizeUpdateReq req).phone = some (normalizePhone s) := by
      simp [normalizeUpdateReq, hps, optStrTruthy, hs]
    have hcondtrue : (optStrTruthy (normalizeUpdateReq req).phone &&
        !phoneRegexTest ((normalizeUpdateReq req).phone.getD "")) = true := by
      rw [hnp]
      simp [optStrTruthy, normalizePhone_ne_empty hs, hreg]
    unfold updateTenant
    simp only [ht]
    rw [if_pos hcondtrue]
  · intro db id req tr row s hps hs h
    have hnp : (normalizeUpdateReq req).phone = some (normalizePhone s) := by
      simp [normalizeUpdateReq, hps, optStrTruthy, hs]
    have htruthy : optStrTruthy (normalizeUpdateReq req).phone = true := by
      rw [hnp]
      simp [optStrTruthy, normalizePhone_ne_empty hs]
    unfold updateTenant at h
    split at h
    · exact absurd h (by simp)
    next t hfind =>
      split at h
      · exact absurd h (by simp)
      next hcond =>
        have hreg : phoneRegexTest (normalizePhone s) = true := by
          by_contra hr
          apply hcond
          rw [htruthy]
          simp only [Bool.true_and, Bool.not_eq_true']
          rw [hnp]
          simpa using hr
        split at h
        · exact absurd h (by simp)
        · simp only [Except.ok.injEq, Prod.mk.injEq] at h
          have hrow : row = applyTenantUpdate t (normalizeUpdateReq req) :=
            h.2.symm
          subst hrow
          constructor
          · show (normalizeUpdateReq req).phone.getD t.phone = normalizePhone s
            rw [hnp]
            rfl
          · show phoneRegexTest ((normalizeUpdateReq req).phone.getD t.phone) =
              true
            rw [hnp]
            exact hreg

theorem C10_witness :
    normalizePhone "0712345678" = "+254" ++ "0712345678".drop 1 ∧
    ((createTenantRow dbW10 reqW10).phone = normalizePhone reqW10.phone ∧
      phoneRegexTest (createTenantRow dbW10 reqW10).phone = true) :=
  ⟨C10_phone_validation.1 "0712345678" ['1', '2', '3', '4', '5', '6', '7', '8']
     (by decide),
   C10_phone_validation.2.1 dbW10 reqW10
     [.write (.insertTenant (createTenantRow dbW10 reqW10))]
     (createTenantRow dbW10 reqW10) (by decide)⟩

end SimamiaKodi
